import Mathlib

/-!
# Verification of `pdf_to_jsonl_ocr_v4.py`

A shallow embedding of the PDF→JSONL converter
(`src/pdf_to_jsonl_ocr_v4.py`) and proofs about its per-page diagnostics,
OCR-trigger policy, OCR fallback behaviour, record assembly, and table
persistence.

Modelling conventions:
* Python floats are modelled as `ℚ` (the quantities involved are exact
  products/quotients of box coordinates, so no claim here depends on binary
  floating point representation).
* `round(x, 4)` is modelled as `⌊x * 10000 + 1/2⌋ / 10000` (round half
  up; Python rounds ties to even — no claim here sits on a tie).
* Filesystem and OCR-engine effects are modelled by explicit environment
  records (`OcrEnv` for `ocr_page`, a path-existence predicate for
  `_configure_tesseract`); exceptions raised by library calls are modelled
  with `Except`.
* `str.strip()` / `ch.isspace()` are modelled with the list-based `strip`
  below / `Char.isWhitespace` (ASCII whitespace; no claim depends on the
  exact Unicode whitespace set).
-/

namespace PdfToJsonl

/-- One structured content block of a page, as in PyMuPDF's `rawdict`:
`kind` is the block `type` (0 = text, 1 = image), `x0 y0 x1 y1` its `bbox`. -/
structure Block where
  kind : Nat
  x0 : ℚ
  y0 : ℚ
  x1 : ℚ
  y1 : ℚ
deriving DecidableEq, Repr

/-- A page: its `rawdict` blocks, the string returned by `page.get_text()`
(unstripped), and the dimensions of `page.rect`. -/
structure Page where
  blocks : List Block
  text : String
  width : ℚ
  height : ℚ
deriving DecidableEq, Repr

/-- One entry of the preflight report's `pages` list
(`preflight`, lines 160–165 of the source). -/
structure PageDiagnostic where
  page : Nat
  has_text_block : Bool
  non_ws_chars : Nat
  image_block_coverage : ℚ
deriving DecidableEq, Repr

/-- `round(q, 4)`: round to 4 decimal places. -/
def round4 (q : ℚ) : ℚ := (⌊q * 10000 + 1/2⌋ : ℚ) / 10000

/-- `s.strip()`: drop leading and trailing whitespace. -/
def strip (s : String) : String :=
  ⟨((s.data.dropWhile Char.isWhitespace).reverse.dropWhile
      Char.isWhitespace).reverse⟩

/-- `sum(1 for ch in s.strip() if not ch.isspace())` (lines 150–151). -/
def non_ws_count (s : String) : Nat :=
  (((strip s).data).filter (fun c => !c.isWhitespace)).length

/-- The image-area accumulation of `preflight` (lines 153–157): sum over
image-kind blocks of bbox area with width and height clamped to `max 0`. -/
def img_area (blocks : List Block) : ℚ :=
  blocks.foldl
    (fun acc b =>
      if b.kind = 1 then acc + max 0 (b.x1 - b.x0) * max 0 (b.y1 - b.y0) else acc)
    0

/-- `page_area = float(page.rect.width * page.rect.height) or 1.0`
(line 158): a zero area is replaced by `1`. -/
def page_area (p : Page) : ℚ :=
  if p.width * p.height = 0 then 1 else p.width * p.height

/-- The per-page diagnostic computed by `preflight` (lines 146–165). -/
def preflight_page (p : Page) (i : Nat) : PageDiagnostic :=
  { page := i
    has_text_block := p.blocks.any (fun b => b.kind = 0)
    non_ws_chars := non_ws_count p.text
    image_block_coverage := round4 (img_area p.blocks / page_area p) }

/-- The OCR trigger decision of `convert_pdf` (lines 375–382).  In the
source, `non_ws` is recomputed in the loop from `page.get_text().strip()`
by the same expression that produced the diagnostic's `non_ws_chars`, so it
equals `d.non_ws_chars`; `has_text_block` and `coverage` are read from the
preflight diagnostic. -/
def should_ocr (mode : String) (d : PageDiagnostic) (th_nonws : Int)
    (th_coverage : ℚ) : Bool :=
  if mode = "force" then true
  else if mode = "auto" then
    (!d.has_text_block) || decide ((d.non_ws_chars : ℤ) < th_nonws)
      || decide (th_coverage ≤ d.image_block_coverage)
  else false

/-- Converter configuration (constructor of `PDFToJSONLConverterOCRv4`,
lines 48–80 of the source; `ocr_dpi` is stored after the `max(72, ·)`
clamp, hence a `Nat`). -/
structure Config where
  ocr_mode : String
  ocr_lang : String
  ocr_dpi : Nat
  ocr_rotate : String
  ocr_psm : Int
  ocr_oem : Int
  th_nonws : Int
  th_coverage : ℚ
deriving DecidableEq, Repr

/-- Environment observed by `ocr_page` (lines 189–226): whether
`pytesseract` and `PIL.Image` were importable, whether the configured
tesseract binary is found (`shutil.which(cmd)` or `os.path.exists(cmd)`),
and the outcome of the render/recognize calls — `Except.error msg` models
an exception whose `str(e)` is `msg`, `Except.ok text` the recognized text
before stripping. -/
structure OcrEnv where
  pytesseract_available : Bool
  tesseract_found : Bool
  recognize : Except String String
deriving Repr

/-- The metadata dict built by `ocr_page` (line 190). -/
structure OcrMeta where
  used : Bool
  lang : Option String
  dpi : Option Nat
  txt : Option String
  tsv : Option String
  hocr : Option String
  error : Option String
deriving DecidableEq, Repr

/-- The initial metadata value of `ocr_page` (line 190) with every field
unset; also models the `ocr_meta = {"used": False}` dict of `convert_pdf`
(line 385), whose `.get` lookups all yield `None`. -/
def emptyOcrMeta : OcrMeta :=
  { used := false, lang := none, dpi := none, txt := none, tsv := none,
    hocr := none, error := none }

/-- Artifact path `os.path.join(self.ocr_dir, f"page{n}.<ext>")`, with
`ocr_dir` modelled as the relative directory `ocr`. -/
def ocr_artifact_path (n : Nat) (ext : String) : String :=
  "ocr/page" ++ toString n ++ "." ++ ext

/-- `ocr_page` (lines 189–226): availability checks, then recognition; on
success the three artifacts are persisted and the stripped text returned,
on any exception the error message is recorded and `""` returned. -/
def ocr_page (cfg : Config) (env : OcrEnv) (page_num : Nat) :
    String × OcrMeta :=
  if !env.pytesseract_available then
    ("", { emptyOcrMeta with
            error := some "pytesseract_or_pillow_not_available" })
  else if !env.tesseract_found then
    ("", { emptyOcrMeta with error := some "tesseract_not_found" })
  else
    match env.recognize with
    | .error e => ("", { emptyOcrMeta with error := some e })
    | .ok text =>
        (strip text,
          { used := true, lang := some cfg.ocr_lang, dpi := some cfg.ocr_dpi,
            txt := some (ocr_artifact_path page_num "txt"),
            tsv := some (ocr_artifact_path page_num "tsv"),
            hocr := some (ocr_artifact_path page_num "hocr"),
            error := none })

/-- The `ocr` object of an emitted record (lines 401–415). -/
structure OcrSection where
  used : Bool
  mode : Option String
  lang : Option String
  dpi : Option Nat
  psm : Option Int
  oem : Option Int
  rotate : Option String
  txt : Option String
  tsv : Option String
  hocr : Option String
  error : Option String
deriving DecidableEq, Repr

/-- One emitted JSONL record (lines 395–416). -/
structure ExtractionRecord where
  page : Nat
  text : String
  images : List String
  tables : List String
  diagnostics : PageDiagnostic
  ocr : OcrSection
deriving DecidableEq, Repr

/-- One iteration of the per-page loop of `convert_pdf` (lines 370–417):
native text, diagnostic, OCR trigger, optional OCR run, text selection and
record assembly. -/
def assemble_record (cfg : Config) (env : OcrEnv) (p : Page) (i : Nat)
    (imgs tbls : List String) : ExtractionRecord :=
  let text_pymupdf := strip p.text
  let page_diag := preflight_page p i
  let need_ocr := should_ocr cfg.ocr_mode page_diag cfg.th_nonws
    cfg.th_coverage
  let res := if need_ocr then ocr_page cfg env i else ("", emptyOcrMeta)
  let ocr_used := res.2.used && !(res.1 == "")
  let text_final := if ocr_used then res.1 else text_pymupdf
  { page := i, text := text_final, images := imgs, tables := tbls,
    diagnostics := page_diag,
    ocr :=
      { used := ocr_used
        mode := some cfg.ocr_mode
        lang := if ocr_used then some cfg.ocr_lang else none
        dpi := if ocr_used then some cfg.ocr_dpi else none
        psm := if ocr_used then some cfg.ocr_psm else none
        oem := if ocr_used then some cfg.ocr_oem else none
        rotate := if ocr_used then some cfg.ocr_rotate else none
        txt := res.2.txt
        tsv := res.2.tsv
        hocr := res.2.hocr
        error := res.2.error } }

/-- The record loop of `convert_pdf`
(`for i, page in enumerate(doc, start=1)`), with `imgs i` and `tbls i`
standing for `images.get(i, [])` and `tables.get(i, [])`. -/
def convert_pdf_loop (cfg : Config) (env : OcrEnv)
    (imgs tbls : Nat → List String) : Nat → List Page → List ExtractionRecord
  | _, [] => []
  | i, p :: rest =>
      assemble_record cfg env p i (imgs i) (tbls i) ::
        convert_pdf_loop cfg env imgs tbls (i + 1) rest

/-- The record list assembled by `convert_pdf` (lines 369–417). -/
def convert_pdf (cfg : Config) (env : OcrEnv) (imgs tbls : Nat → List String)
    (doc : List Page) : List ExtractionRecord :=
  convert_pdf_loop cfg env imgs tbls 1 doc

/-- A minimal concrete page: native text `"hello"`, no blocks, unit
square. -/
def hello_page : Page :=
  { blocks := [], text := "hello", width := 1, height := 1 }

/-- The default configuration of the source with OCR mode `"force"`. -/
def force_cfg : Config :=
  { ocr_mode := "force", ocr_lang := "jpn+eng", ocr_dpi := 300,
    ocr_rotate := "auto", ocr_psm := 6, ocr_oem := 1, th_nonws := 20,
    th_coverage := 7/10 }

/-- An environment in which the tesseract binary is not found. -/
def no_tess_env : OcrEnv :=
  { pytesseract_available := true, tesseract_found := false,
    recognize := Except.ok "" }

/-- An environment in which recognition succeeds but returns only
whitespace. -/
def ws_ocr_env : OcrEnv :=
  { pytesseract_available := true, tesseract_found := true,
    recognize := Except.ok "  \n " }

/-- The configuration of the source with OCR mode `"off"`. -/
def off_cfg : Config := { force_cfg with ocr_mode := "off" }

/-- A 10×10 page with a single image block whose bbox spills past the page
edge (area 20×10). -/
def wide_image_page : Page :=
  { blocks := [{ kind := 1, x0 := 0, y0 := 0, x1 := 20, y1 := 10 }],
    text := "", width := 10, height := 10 }

/-- A page reporting zero total area. -/
def zero_area_page : Page :=
  { blocks := [], text := "", width := 0, height := 10 }

/-- A raw table candidate as returned by `page.extract_tables`: rows of
cells, a cell being a string or `None`. -/
abbrev TableCandidate := List (List (Option String))

/-- Cell normalization of line 317: `cell if cell is not None else ""`. -/
def clean_row (row : List (Option String)) : List String :=
  row.map (fun c => c.getD "")

/-- The row test of line 318: some cell of the cleaned row is non-blank
after stripping. -/
def row_has_content (row : List String) : Bool :=
  row.any (fun c => !(strip c == ""))

/-- Lines 315–321: normalize each row of a candidate and keep the rows
with content. -/
def cleaned_rows (t : TableCandidate) : List (List String) :=
  (t.map clean_row).filter row_has_content

/-- The persisted CSV path `f"page{i}_table{k}.csv"`, with `table_dir`
modelled as the relative directory `tables`. -/
def table_path (page_idx k : Nat) : String :=
  "tables/page" ++ toString page_idx ++ "_table" ++ toString k ++ ".csv"

/-- The candidate loop of `extract_and_save_tables` (lines 309–326): a
candidate is persisted exactly when its cleaned rows are non-empty, its
file numbered `len(saved_paths) + 1`. -/
def save_tables_loop (page_idx : Nat) :
    List TableCandidate → List String → List String
  | [], saved => saved
  | t :: rest, saved =>
      if cleaned_rows t = [] then save_tables_loop page_idx rest saved
      else save_tables_loop page_idx rest
        (saved ++ [table_path page_idx (saved.length + 1)])

/-- `extract_and_save_tables` restricted to one page (lines 307–327): the
lattice strategy's candidates are processed before the stream strategy's;
a strategy that raised contributes the empty candidate list. -/
def extract_and_save_tables_page (page_idx : Nat)
    (lattice_tables stream_tables : List TableCandidate) : List String :=
  save_tables_loop page_idx (lattice_tables ++ stream_tables) []

/-- The Windows default install paths of lines 98–101. -/
def windows_default_paths : List String :=
  ["C:\\Program Files\\Tesseract-OCR\\tesseract.exe",
   "C:\\Program Files (x86)\\Tesseract-OCR\\tesseract.exe"]

/-- The mac/Linux default install paths of lines 103–107. -/
def unix_default_paths : List String :=
  ["/opt/homebrew/bin/tesseract", "/usr/local/bin/tesseract",
   "/usr/bin/tesseract"]

/-- The candidate list of `_configure_tesseract` (lines 89–107): the
environment override (`TESSERACT_CMD` or `TESSERACT_EXE`) is appended
first, the explicit `tesseract_cmd` argument second, then the Windows and
mac/Linux default install paths.  `none` models an unset or falsy value. -/
def tesseract_candidates (env_cmd tesseract_cmd : Option String) :
    List String :=
  env_cmd.toList ++ tesseract_cmd.toList ++ windows_default_paths
    ++ unix_default_paths

/-- The binary configured by `_configure_tesseract` (lines 109–118): the
first candidate `c` that is truthy and for which `os.path.exists(c)`
holds; `none` when no candidate matches (the source then keeps the
PATH-based default `"tesseract"`). -/
def configured_tesseract (path_exists : String → Bool)
    (env_cmd tesseract_cmd : Option String) : Option String :=
  (tesseract_candidates env_cmd tesseract_cmd).find?
    (fun c => !(c == "") && path_exists c)

end PdfToJsonl

namespace PdfToJsonl

/-- C1: the OCR trigger decision: `off` never triggers, `force` always
triggers, and `auto` triggers exactly when the page has no text block, or
its non-whitespace count is strictly below the threshold, or its image
coverage is at or above the coverage threshold. -/
theorem should_ocr_spec (d : PageDiagnostic) (tn : Int) (tc : ℚ) :
    should_ocr "off" d tn tc = false ∧
    should_ocr "force" d tn tc = true ∧
    (should_ocr "auto" d tn tc = true ↔
      d.has_text_block = false ∨ (d.non_ws_chars : ℤ) < tn ∨
        tc ≤ d.image_block_coverage) := by
  refine ⟨by simp [should_ocr], by simp [should_ocr], ?_⟩
  simp [should_ocr, Bool.or_eq_true, decide_eq_true_iff, Bool.not_eq_true',
    or_assoc]

/-- C10: a mode string other than `force` and `auto` never triggers OCR and
behaves exactly like `off`; the decision raises no validation error. -/
theorem should_ocr_unknown_mode (mode : String) (h₁ : mode ≠ "force")
    (h₂ : mode ≠ "auto") (d : PageDiagnostic) (tn : Int) (tc : ℚ) :
    should_ocr mode d tn tc = false ∧
    should_ocr mode d tn tc = should_ocr "off" d tn tc := by
  simp [should_ocr, h₁, h₂]

/-- Witness for C10 at the concrete unrecognized mode `"OFF"`. -/
theorem should_ocr_unknown_mode_witness :
    should_ocr "OFF" ⟨1, false, 0, 0⟩ 20 (7/10) = false :=
  (should_ocr_unknown_mode "OFF" (by decide) (by decide) ⟨1, false, 0, 0⟩ 20
    (7/10)).1

end PdfToJsonl

namespace PdfToJsonl

/-- Helper: whenever `ocr_page` reports `used = false`, it persisted no
artifacts and returned the empty string. -/
theorem ocr_page_unused_no_artifacts (cfg : Config) (env : OcrEnv) (n : Nat)
    (h : (ocr_page cfg env n).2.used = false) :
    (ocr_page cfg env n).2.txt = none ∧ (ocr_page cfg env n).2.tsv = none ∧
      (ocr_page cfg env n).2.hocr = none ∧ (ocr_page cfg env n).1 = "" := by
  unfold ocr_page at h ⊢
  cases hpa : env.pytesseract_available <;>
    cases htf : env.tesseract_found <;>
      rcases hrec : env.recognize with e | t <;>
        simp_all [emptyOcrMeta]

/-- Helper: whenever `ocr_page` reports `used = true`, it recorded all
three artifact paths, no error, and returned the stripped recognized
text. -/
theorem ocr_page_used_success (cfg : Config) (env : OcrEnv) (n : Nat)
    (h : (ocr_page cfg env n).2.used = true) :
    (ocr_page cfg env n).2.txt = some (ocr_artifact_path n "txt") ∧
      (ocr_page cfg env n).2.error = none := by
  unfold ocr_page at h ⊢
  cases hpa : env.pytesseract_available <;>
    cases htf : env.tesseract_found <;>
      rcases hrec : env.recognize with e | t <;>
        simp_all [emptyOcrMeta]

end PdfToJsonl

namespace PdfToJsonl

/-- C2 counterexample: with OCR forced and the tesseract binary missing,
the record's `ocr.artifacts.error` is the string `"tesseract_not_found"`,
not `"engine_unavailable"` as the claim states. -/
theorem engine_unavailable_error_string_cex :
    (assemble_record force_cfg no_tess_env hello_page 1 [] []).ocr.error
        = some "tesseract_not_found" ∧
      (assemble_record force_cfg no_tess_env hello_page 1 [] []).ocr.error
        ≠ some "engine_unavailable" := by
  decide

/-- C2 amended: when OCR is triggered but the engine binary cannot be
located or the OCR support library is unavailable, the OCR step never
raises: the record keeps the native text, `ocr.used` is `false`, and
`ocr.artifacts.error` is `"tesseract_not_found"` (binary missing) or
`"pytesseract_or_pillow_not_available"` (library missing). -/
theorem ocr_engine_unavailable_fallback (cfg : Config) (env : OcrEnv)
    (p : Page) (i : Nat) (imgs tbls : List String)
    (htrig : should_ocr cfg.ocr_mode (preflight_page p i) cfg.th_nonws
      cfg.th_coverage = true)
    (henv : env.pytesseract_available = false ∨ env.tesseract_found = false) :
    (assemble_record cfg env p i imgs tbls).text = strip p.text ∧
      (assemble_record cfg env p i imgs tbls).ocr.used = false ∧
      (assemble_record cfg env p i imgs tbls).ocr.error =
        some (if env.pytesseract_available then "tesseract_not_found"
          else "pytesseract_or_pillow_not_available") := by
  rcases henv with h | h
  · simp [assemble_record, htrig, ocr_page, h, emptyOcrMeta]
  · cases hpa : env.pytesseract_available
    · simp [assemble_record, htrig, ocr_page, hpa, emptyOcrMeta]
    · simp [assemble_record, htrig, ocr_page, hpa, h, emptyOcrMeta]

/-- Witness for C2 amended: forced OCR against a missing binary keeps the
native text of the concrete page. -/
theorem ocr_engine_unavailable_fallback_witness :
    (assemble_record force_cfg no_tess_env hello_page 1 [] []).text = "hello"
      ∧ (assemble_record force_cfg no_tess_env hello_page 1 [] []).ocr.used
        = false := by
  have h := ocr_engine_unavailable_fallback force_cfg no_tess_env hello_page
    1 [] [] (by decide) (Or.inr (by decide))
  exact ⟨h.1.trans (by decide), h.2.1⟩

/-- C4: if OCR is attempted and the stripped OCR text is empty, the
record's text is the native text and `ocr.used` is `false`; conversely
`ocr.used = true` only when a non-empty stripped OCR string replaced the
native text. -/
theorem ocr_empty_text_keeps_native (cfg : Config) (env : OcrEnv) (p : Page)
    (i : Nat) (imgs tbls : List String) :
    ((should_ocr cfg.ocr_mode (preflight_page p i) cfg.th_nonws
      cfg.th_coverage = true) →
      (ocr_page cfg env i).1 = "" →
      (assemble_record cfg env p i imgs tbls).text = strip p.text ∧
        (assemble_record cfg env p i imgs tbls).ocr.used = false) ∧
    ((assemble_record cfg env p i imgs tbls).ocr.used = true →
      (assemble_record cfg env p i imgs tbls).text = (ocr_page cfg env i).1 ∧
        (ocr_page cfg env i).1 ≠ "") := by
  cases hno : should_ocr cfg.ocr_mode (preflight_page p i) cfg.th_nonws
    cfg.th_coverage
  · refine ⟨fun h => absurd h (by simp [hno]), fun h => ?_⟩
    simp [assemble_record, hno, emptyOcrMeta] at h
  · constructor
    · intro _ hempty
      simp [assemble_record, hno, hempty]
    · intro h
      simp only [assemble_record, hno] at h ⊢
      simp only [if_true] at h ⊢
      constructor
      · simp_all
      · rcases Bool.and_eq_true _ _ |>.mp h with ⟨-, hne⟩
        simpa using hne

end PdfToJsonl

namespace PdfToJsonl

/-- Witness for C4: forced OCR whose recognized text strips to `""` leaves
the concrete record's text native and `ocr.used = false`. -/
theorem ocr_empty_text_keeps_native_witness :
    (assemble_record force_cfg ws_ocr_env hello_page 1 [] []).text = "hello"
      ∧ (assemble_record force_cfg ws_ocr_env hello_page 1 [] []).ocr.used
        = false := by
  have h := (ocr_empty_text_keeps_native force_cfg ws_ocr_env hello_page 1
    [] []).1 (by decide) (by decide)
  exact ⟨h.1.trans (by decide), h.2⟩

/-- C5 counterexample: a record with `ocr.used = false` still carries the
configured mode string in `ocr.mode`, so not every OCR detail field is
`null`. -/
theorem ocr_unused_null_fields_cex :
    (assemble_record off_cfg no_tess_env hello_page 1 [] []).ocr.used = false
      ∧ (assemble_record off_cfg no_tess_env hello_page 1 [] []).ocr.mode
        ≠ none := by
  decide

/-- C5 amended: in a record with `ocr.used = false`, the detail fields
`lang`, `dpi`, `psm`, `oem`, `rotate` are `null`; `mode` always carries the
configured mode string (never `null`); and the artifact paths `txt`, `tsv`,
`hocr` are `null` except when the OCR run itself completed (persisting its
artifacts) while its stripped text was empty. -/
theorem ocr_unused_null_fields (cfg : Config) (env : OcrEnv) (p : Page)
    (i : Nat) (imgs tbls : List String)
    (h : (assemble_record cfg env p i imgs tbls).ocr.used = false) :
    (assemble_record cfg env p i imgs tbls).ocr.lang = none ∧
    (assemble_record cfg env p i imgs tbls).ocr.dpi = none ∧
    (assemble_record cfg env p i imgs tbls).ocr.psm = none ∧
    (assemble_record cfg env p i imgs tbls).ocr.oem = none ∧
    (assemble_record cfg env p i imgs tbls).ocr.rotate = none ∧
    (assemble_record cfg env p i imgs tbls).ocr.mode = some cfg.ocr_mode ∧
    (((assemble_record cfg env p i imgs tbls).ocr.txt ≠ none ∨
        (assemble_record cfg env p i imgs tbls).ocr.tsv ≠ none ∨
        (assemble_record cfg env p i imgs tbls).ocr.hocr ≠ none) →
      ((ocr_page cfg env i).2.used = true ∧ (ocr_page cfg env i).1 = "")) := by
  cases hno : should_ocr cfg.ocr_mode (preflight_page p i) cfg.th_nonws
    cfg.th_coverage
  · simp [assemble_record, hno, emptyOcrMeta]
  · simp only [assemble_record, hno, if_true] at h ⊢
    cases hu : (ocr_page cfg env i).2.used
    · have hart := ocr_page_unused_no_artifacts cfg env i hu
      simp [hu, hart.1, hart.2.1, hart.2.2.1]
    · simp only [hu, Bool.true_and] at h ⊢
      have hempty : (ocr_page cfg env i).1 = "" := by
        by_contra hne
        simp [hne] at h
      simp [hempty, hu]

/-- Witness for C5 amended: a concrete `mode = off` record with
`ocr.used = false` has all conditional detail fields `null` and records the
mode string. -/
theorem ocr_unused_null_fields_witness :
    (assemble_record off_cfg no_tess_env hello_page 1 [] []).ocr.lang = none
      ∧ (assemble_record off_cfg no_tess_env hello_page 1 [] []).ocr.mode
        = some "off" :=
  ⟨(ocr_unused_null_fields off_cfg no_tess_env hello_page 1 [] []
      (by decide)).1,
   ((ocr_unused_null_fields off_cfg no_tess_env hello_page 1 [] []
      (by decide)).2.2.2.2.2.1).trans (by decide)⟩

end PdfToJsonl

namespace PdfToJsonl

/-- Helper: the record loop emits one record per page. -/
theorem convert_pdf_loop_length (cfg : Config) (env : OcrEnv)
    (imgs tbls : Nat → List String) :
    ∀ (doc : List Page) (i : Nat),
      (convert_pdf_loop cfg env imgs tbls i doc).length = doc.length := by
  intro doc
  induction doc with
  | nil => intro i; rfl
  | cons p rest ih => intro i; simp [convert_pdf_loop, ih]

/-- Helper: the `k`-th record of the loop started at index `i` carries page
number `i + k`. -/
theorem convert_pdf_loop_page (cfg : Config) (env : OcrEnv)
    (imgs tbls : Nat → List String) :
    ∀ (doc : List Page) (i k : Nat)
      (h : k < (convert_pdf_loop cfg env imgs tbls i doc).length),
      ((convert_pdf_loop cfg env imgs tbls i doc).get ⟨k, h⟩).page = i + k := by
  intro doc
  induction doc with
  | nil => intro i k h; simp [convert_pdf_loop] at h
  | cons p rest ih =>
    intro i k h
    cases k with
    | zero => simp [convert_pdf_loop, assemble_record]
    | succ k =>
      have hk : k < (convert_pdf_loop cfg env imgs tbls (i + 1) rest).length := by
        simpa [convert_pdf_loop] using h
      calc ((convert_pdf_loop cfg env imgs tbls i (p :: rest)).get
              ⟨k + 1, h⟩).page
          = ((convert_pdf_loop cfg env imgs tbls (i + 1) rest).get
              ⟨k, hk⟩).page := rfl
        _ = (i + 1) + k := ih (i + 1) k hk
        _ = i + (k + 1) := by omega

end PdfToJsonl

namespace PdfToJsonl

/-- C6: for every document processed to completion, `convert_pdf` emits
exactly one record per page, and the `k`-th record carries page index
`k + 1`, so the page indices are strictly increasing starting at 1, in
page order. -/
theorem convert_pdf_record_count_and_order (cfg : Config) (env : OcrEnv)
    (imgs tbls : Nat → List String) (doc : List Page) :
    (convert_pdf cfg env imgs tbls doc).length = doc.length ∧
    ∀ (k : Nat) (h : k < (convert_pdf cfg env imgs tbls doc).length),
      ((convert_pdf cfg env imgs tbls doc).get ⟨k, h⟩).page = k + 1 := by
  refine ⟨convert_pdf_loop_length cfg env imgs tbls doc 1, fun k h => ?_⟩
  have h2 : ((convert_pdf cfg env imgs tbls doc).get ⟨k, h⟩).page = 1 + k :=
    convert_pdf_loop_page cfg env imgs tbls doc 1 k h
  omega

/-- Witness for C6: the second record of a concrete two-page document
carries page index 2. -/
theorem convert_pdf_record_count_and_order_witness :
    ((convert_pdf off_cfg no_tess_env (fun _ => []) (fun _ => [])
        [hello_page, hello_page]).get ⟨1, by decide⟩).page = 2 :=
  (convert_pdf_record_count_and_order off_cfg no_tess_env (fun _ => [])
    (fun _ => []) [hello_page, hello_page]).2 1 (by decide)

end PdfToJsonl

namespace PdfToJsonl

/-- Helper: the image-area accumulator only grows from a non-negative
start. -/
theorem img_area_foldl_nonneg :
    ∀ (blocks : List Block) (acc : ℚ), 0 ≤ acc →
      0 ≤ blocks.foldl
        (fun acc b =>
          if b.kind = 1 then
            acc + max 0 (b.x1 - b.x0) * max 0 (b.y1 - b.y0)
          else acc) acc := by
  intro blocks
  induction blocks with
  | nil => intro acc h; simpa using h
  | cons b rest ih =>
    intro acc h
    simp only [List.foldl_cons]
    apply ih
    split
    · exact add_nonneg h (mul_nonneg (le_max_left 0 _) (le_max_left 0 _))
    · exact h

/-- Helper: `img_area` is non-negative. -/
theorem img_area_nonneg (blocks : List Block) : 0 ≤ img_area blocks :=
  img_area_foldl_nonneg blocks 0 le_rfl

/-- Helper: for a page with non-negative dimensions the coverage divisor is
positive. -/
theorem page_area_pos (p : Page) (hw : 0 ≤ p.width) (hh : 0 ≤ p.height) :
    0 < page_area p := by
  unfold page_area
  split
  · norm_num
  · rename_i h
    exact lt_of_le_of_ne (mul_nonneg hw hh) (Ne.symm h)

/-- Helper: rounding to 4 decimals preserves non-negativity. -/
theorem round4_nonneg (q : ℚ) (h : 0 ≤ q) : 0 ≤ round4 q := by
  unfold round4
  have h0 : (0 : ℚ) ≤ q * 10000 := mul_nonneg h (by norm_num)
  have h1 : (0 : ℤ) ≤ ⌊q * 10000 + 1 / 2⌋ :=
    Int.le_floor.mpr (by push_cast; linarith)
  have h2 : (0 : ℚ) ≤ (⌊q * 10000 + 1 / 2⌋ : ℚ) := by exact_mod_cast h1
  positivity

/-- C9: the coverage divisor of the diagnostics pass is total: it is never
zero, and a page reporting zero area gets divisor `1`, so the division is
always defined (the embedded pass is a total function and never raises). -/
theorem page_area_never_zero (p : Page) :
    page_area p ≠ 0 ∧ (p.width * p.height = 0 → page_area p = 1) := by
  unfold page_area
  constructor
  · split
    · norm_num
    · assumption
  · intro h
    simp [h]

/-- Witness for C9 at a concrete zero-area page. -/
theorem page_area_never_zero_witness : page_area zero_area_page = 1 :=
  (page_area_never_zero zero_area_page).2 (by norm_num [zero_area_page])

end PdfToJsonl

namespace PdfToJsonl

/-- C7 counterexample: on a 10×10 page with one image block of bbox area
20×10, the computed `image_block_coverage` is `2`, outside the claimed
closed interval `[0, 1]` — the quotient is never clamped to `1`. -/
theorem image_block_coverage_unit_interval_cex :
    (preflight_page wide_image_page 1).image_block_coverage = 2 ∧
      ¬ (preflight_page wide_image_page 1).image_block_coverage ≤ 1 := by
  have h : (preflight_page wide_image_page 1).image_block_coverage = 2 := by
    show round4 (img_area wide_image_page.blocks / page_area wide_image_page)
      = 2
    norm_num [round4, img_area, page_area, wide_image_page]
  exact ⟨h, by rw [h]; norm_num⟩

/-- C7 amended: `image_block_coverage` is computed by summing the
image-kind blocks' bbox areas with width and height clamped to
non-negative, dividing by the page area, and rounding to 4 decimal places;
for a page with non-negative dimensions it is a non-negative rational, but
it is not clamped above by 1 and can exceed 1 when image blocks overlap or
spill past the page bounds. -/
theorem image_block_coverage_formula_and_nonneg (p : Page) (i : Nat)
    (hw : 0 ≤ p.width) (hh : 0 ≤ p.height) :
    0 ≤ (preflight_page p i).image_block_coverage ∧
      (preflight_page p i).image_block_coverage
        = round4 (img_area p.blocks / page_area p) := by
  refine ⟨?_, rfl⟩
  exact round4_nonneg _
    (div_nonneg (img_area_nonneg p.blocks) (page_area_pos p hw hh).le)

/-- Witness for C7 amended at the concrete overspilling page. -/
theorem image_block_coverage_formula_and_nonneg_witness :
    0 ≤ (preflight_page wide_image_page 1).image_block_coverage :=
  (image_block_coverage_formula_and_nonneg wide_image_page 1
    (by norm_num [wide_image_page]) (by norm_num [wide_image_page])).1

end PdfToJsonl

namespace PdfToJsonl

/-- Helper: the table-saving loop appends, after the already-saved paths,
one sequentially numbered path per surviving candidate. -/
theorem save_tables_loop_spec (pi : Nat) :
    ∀ (cands : List TableCandidate) (saved : List String),
      save_tables_loop pi cands saved =
        saved ++ (List.range ((cands.filter
            (fun t => !(cleaned_rows t).isEmpty)).length)).map
          (fun j => table_path pi (saved.length + 1 + j)) := by
  intro cands
  induction cands with
  | nil => intro saved; simp [save_tables_loop]
  | cons t rest ih =>
    intro saved
    by_cases h : cleaned_rows t = []
    · have hf : (!(cleaned_rows t).isEmpty) = false := by
        simp [h]
      simp [save_tables_loop, h, hf, ih]
    · have hf : (!(cleaned_rows t).isEmpty) = true := by
        simp [h]
      rw [save_tables_loop, if_neg h, ih]
      simp only [List.filter_cons, hf, if_true, List.length_cons,
        List.range_succ_eq_map, List.map_cons, List.map_map,
        List.length_append, List.length_singleton, List.append_assoc,
        List.singleton_append]
      congr 1
      simp only [List.length_nil, Nat.zero_add, Nat.add_zero, List.cons.injEq]
      refine ⟨trivial, ?_⟩
      apply List.map_congr_left
      intro j _
      simp only [Function.comp_apply]
      congr 1
      omega

end PdfToJsonl

namespace PdfToJsonl

/-- C8: absent cells are normalized to empty strings before the blankness
test; a candidate whose rows contain no non-blank cell is never persisted;
a candidate with at least one non-blank cell in some row is always
persisted; and the persisted files are numbered sequentially within the
page across both strategies, lattice candidates before stream
candidates. -/
theorem tables_persisted_iff_content (pi : Nat)
    (lattice_tables stream_tables : List TableCandidate) :
    extract_and_save_tables_page pi lattice_tables stream_tables =
      (List.range (((lattice_tables ++ stream_tables).filter
          (fun t => !(cleaned_rows t).isEmpty)).length)).map
        (fun j => table_path pi (j + 1)) ∧
    ∀ t : TableCandidate,
      ((cleaned_rows t).isEmpty = true ↔
        ∀ row ∈ t, ∀ c ∈ row, strip (c.getD "") = "") := by
  constructor
  · rw [extract_and_save_tables_page, save_tables_loop_spec]
    simp only [List.nil_append, List.length_nil, Nat.zero_add]
    apply List.map_congr_left
    intro j _
    congr 1
    omega
  · intro t
    simp only [cleaned_rows, List.isEmpty_iff, List.filter_eq_nil_iff,
      List.mem_map, row_has_content, clean_row, forall_exists_index,
      and_imp, List.any_eq_true, not_exists, not_and, Bool.not_eq_true,
      Bool.not_eq_false, beq_iff_eq]
    constructor
    · intro h row hrow c hc
      have h2 := h _ row hrow rfl
      have h3 := h2 _ (List.mem_map_of_mem (fun c => c.getD "") hc)
      simpa using h3
    · intro h a row hrow hmap
      subst hmap
      intro x hx
      rcases List.mem_map.mp hx with ⟨c0, hc0, rfl⟩
      simp [h row hrow c0 hc0]

/-- Witness for C8: of three concrete candidates (one with content, one
all-blank after normalization, one stream candidate with content) exactly
the two with content are persisted, numbered 1 and 2. -/
theorem tables_persisted_iff_content_witness :
    extract_and_save_tables_page 3
        [[[some "a", none]], [[none, some "  "]]] [[[some "b"]]] =
      ["tables/page3_table1.csv", "tables/page3_table2.csv"] := by
  rw [(tables_persisted_iff_content 3
    [[[some "a", none]], [[none, some "  "]]] [[[some "b"]]]).1]
  decide

end PdfToJsonl

namespace PdfToJsonl

/-- C3 counterexample: with both the environment override and the
explicitly supplied path existing, `_configure_tesseract` configures the
environment override, not the explicit path — the claimed priority order
(explicit first, then environment) does not match the code. -/
theorem tesseract_priority_cex :
    configured_tesseract
        (fun s => s == "/env/tesseract" || s == "/cli/tesseract")
        (some "/env/tesseract") (some "/cli/tesseract")
      = some "/env/tesseract" ∧
    configured_tesseract
        (fun s => s == "/env/tesseract" || s == "/cli/tesseract")
        (some "/env/tesseract") (some "/cli/tesseract")
      ≠ some "/cli/tesseract" := by
  decide

/-- C3 amended: the candidates are consulted in the priority order
environment override first, then the explicitly supplied path, then the
OS-specific default install paths (Windows, then mac/Linux); the first
existing truthy candidate is the one configured for the whole run, and a
configured binary is always an existing candidate; PATH lookup is not part
of the scan but the implicit fallback when no candidate matches. -/
theorem tesseract_priority_order (path_exists : String → Bool)
    (env_cmd tesseract_cmd : Option String) :
    (∀ e, env_cmd = some e → e ≠ "" → path_exists e = true →
      configured_tesseract path_exists env_cmd tesseract_cmd = some e) ∧
    (∀ x, tesseract_cmd = some x → x ≠ "" → path_exists x = true →
      (env_cmd = none ∨
        ∃ e, env_cmd = some e ∧ (e = "" ∨ path_exists e = false)) →
      configured_tesseract path_exists env_cmd tesseract_cmd = some x) ∧
    (∀ c, configured_tesseract path_exists env_cmd tesseract_cmd = some c →
      c ≠ "" ∧ path_exists c = true ∧
        c ∈ tesseract_candidates env_cmd tesseract_cmd) := by
  refine ⟨?_, ?_, ?_⟩
  · intro e he hne hex
    subst he
    unfold configured_tesseract tesseract_candidates
    simp only [Option.toList_some, List.cons_append]
    apply List.find?_cons_of_pos
    simp [hne, hex]
  · intro x hx hne hex henv
    subst hx
    rcases henv with he | ⟨e, he, hbad⟩
    · subst he
      unfold configured_tesseract tesseract_candidates
      simp only [Option.toList_none, List.nil_append, Option.toList_some,
        List.cons_append]
      apply List.find?_cons_of_pos
      simp [hne, hex]
    · subst he
      unfold configured_tesseract tesseract_candidates
      simp only [Option.toList_some, List.cons_append]
      rw [List.find?_cons_of_neg]
      · apply List.find?_cons_of_pos
        simp [hne, hex]
      · rcases hbad with h | h <;> simp [h]
  · intro c hc
    unfold configured_tesseract at hc
    have hp := List.find?_some hc
    simp only [Bool.and_eq_true, Bool.not_eq_true', beq_eq_false_iff_ne,
      ne_eq] at hp
    exact ⟨hp.1, hp.2, List.mem_of_find?_eq_some hc⟩

/-- Witness for C3 amended: the environment override wins at a concrete
input where both it and the explicit path exist. -/
theorem tesseract_priority_order_witness :
    configured_tesseract
        (fun s => s == "/env/tesseract" || s == "/cli/tesseract")
        (some "/env/tesseract") (some "/cli/tesseract")
      = some "/env/tesseract" :=
  (tesseract_priority_order
      (fun s => s == "/env/tesseract" || s == "/cli/tesseract")
      (some "/env/tesseract") (some "/cli/tesseract")).1
    "/env/tesseract" rfl (by decide) (by decide)

end PdfToJsonl

namespace PdfToJsonl

/-- Witness for C1: a concrete textless-page diagnostic triggers OCR in
`auto` mode. -/
theorem should_ocr_spec_witness :
    should_ocr "auto" ⟨1, false, 500, 1/10⟩ 20 (7/10) = true :=
  ((should_ocr_spec ⟨1, false, 500, 1/10⟩ 20 (7/10)).2.2).mpr (Or.inl rfl)

end PdfToJsonl
